import Mathlib

/-!
Verification of the EFGB scan / diff / transfer / poll engine.

This file gives a shallow embedding, in Lean 4, of the core engine of the
repository (src/monitor.py and src/server-rpc.py) and proves or refutes the
specified properties against it.

Modelling conventions:
* A filesystem is a list of named entries; a directory entry carries its own
  list of entries.  `Entry.errEntry` stands for an entry whose inspection
  raises an exception (permission denied, race-deleted file, ...).
* Python's `os.scandir` entry predicates `entry.is_file()` / `entry.is_dir()`
  follow symbolic links (their default `follow_symlinks=True`), so a symlink
  whose target is a regular file satisfies `is_file` and a symlink whose
  target is a directory satisfies `is_dir`; a broken symlink satisfies
  neither.  The embedding mirrors this.
* Fallible operations return `Except String` (an uncaught Python exception is
  an `Except.error`); logging and `time.sleep` are side effects irrelevant to
  the verified properties, except that retry delays are recorded explicitly
  where a property mentions them.
-/

/-- Relative paths are plain strings, as in the Python sources. -/
abbrev RelPath := String

/-- Embedding of `os.path.join` / `os.path.relpath` as used by the scanners:
the relative path of an entry is the parent's relative path joined with the
entry name (`os.path.join('', name) = name`). -/
def joinPath (pre name : String) : RelPath :=
  if pre = "" then name else pre ++ "/" ++ name

/-- One directory entry of the modelled source tree.  Regular files and
symlinks to files carry an `st_mtime` (used only by the remote scanner's
`last_scan_time` filter).  `errEntry` models an entry whose inspection raises
an `OSError` (permission denied or race-deleted entry). -/
inductive Entry where
  | file (name : String) (mtime : Nat)
  | dir (name : String) (entries : List Entry)
  | symlinkFile (name : String) (mtime : Nat)
  | symlinkDir (name : String) (entries : List Entry)
  | symlinkBroken (name : String)
  | errEntry (name : String)

/-- Embedding of `monitor.py` lines 187-203, the local scanner
`monitor_directory.scan_directory` (the scanner of
`compare_and_get_files_to_sync`, lines 20-41, applies the identical
membership filter).  For each entry of a directory: if `entry.is_file()`
(true for regular files and for symlinks resolving to regular files) the
relative path is appended when it is in neither `tracked_files` nor
`dest_files`; if `entry.is_dir()` (true also for symlinks resolving to
directories) the subdirectory is scanned recursively.  The single
`try/except` of the source wraps the whole `for` loop of one directory, so an
entry whose inspection raises aborts the remainder of that directory's
listing (already-collected results and other directories are unaffected). -/
def scanEntries (tracked dest : List RelPath) (pre : String) : List Entry → List RelPath
  | [] => []
  | Entry.errEntry _ :: _ => []
  | Entry.file n _ :: rest =>
      (if joinPath pre n ∉ tracked ∧ joinPath pre n ∉ dest then [joinPath pre n] else [])
        ++ scanEntries tracked dest pre rest
  | Entry.symlinkFile n _ :: rest =>
      (if joinPath pre n ∉ tracked ∧ joinPath pre n ∉ dest then [joinPath pre n] else [])
        ++ scanEntries tracked dest pre rest
  | Entry.dir n es :: rest =>
      scanEntries tracked dest (joinPath pre n) es ++ scanEntries tracked dest pre rest
  | Entry.symlinkDir n es :: rest =>
      scanEntries tracked dest (joinPath pre n) es ++ scanEntries tracked dest pre rest
  | Entry.symlinkBroken _ :: rest => scanEntries tracked dest pre rest

/-- The raw source snapshot of the same traversal: every path the local
scanner visits as a file, with no tracked/destination filtering.  The
traversal (symlink handling, error handling) is identical to `scanEntries`,
so the scanner's output factors as snapshot followed by a pure filter. -/
def listPaths (pre : String) : List Entry → List RelPath
  | [] => []
  | Entry.errEntry _ :: _ => []
  | Entry.file n _ :: rest => joinPath pre n :: listPaths pre rest
  | Entry.symlinkFile n _ :: rest => joinPath pre n :: listPaths pre rest
  | Entry.dir n es :: rest => listPaths (joinPath pre n) es ++ listPaths pre rest
  | Entry.symlinkDir n es :: rest => listPaths (joinPath pre n) es ++ listPaths pre rest
  | Entry.symlinkBroken _ :: rest => listPaths pre rest

/-- The diff predicate of `monitor.py` line 193 (`file_path not in
tracked_files and file_path not in dest_files`) applied as a pure filter over
a source snapshot. -/
def diffFiles (src tracked dest : List RelPath) : List RelPath :=
  src.filter fun p => decide (p ∉ tracked ∧ p ∉ dest)

/-- Freshness test of `server-rpc.py` line 38: a file qualifies when
`last_scan_time is None or entry.stat().st_mtime > last_scan_time`. -/
def rpcFresh : Option Nat → Nat → Bool
  | none, _ => true
  | some t, m => decide (t < m)

/-- Embedding of the remote scanner `FileScannerService.exposed_scan_directory`
inner traversal (`server-rpc.py` lines 32-46).  The `try/except OSError` sits
inside the `for` loop, around one entry, so an entry whose inspection raises
is skipped and the traversal continues with the next entry of the same
directory. -/
def rpc_scan_entries (lastScan : Option Nat) (pre : String) : List Entry → List RelPath
  | [] => []
  | Entry.errEntry _ :: rest => rpc_scan_entries lastScan pre rest
  | Entry.file n m :: rest =>
      (if rpcFresh lastScan m then [joinPath pre n] else []) ++ rpc_scan_entries lastScan pre rest
  | Entry.symlinkFile n m :: rest =>
      (if rpcFresh lastScan m then [joinPath pre n] else []) ++ rpc_scan_entries lastScan pre rest
  | Entry.dir n es :: rest =>
      rpc_scan_entries lastScan (joinPath pre n) es ++ rpc_scan_entries lastScan pre rest
  | Entry.symlinkDir n es :: rest =>
      rpc_scan_entries lastScan (joinPath pre n) es ++ rpc_scan_entries lastScan pre rest
  | Entry.symlinkBroken _ :: rest => rpc_scan_entries lastScan pre rest

/-- Embedding of `exposed_scan_directory` (`server-rpc.py` lines 21-52): scan
the root and return the found paths together with the server timestamp taken
at the start of the call.  A failure to open the root itself is logged by the
outer handler and re-raised. -/
def exposed_scan_directory (lastScan : Option Nat) (root : Option (List Entry))
    (scanTime : Nat) : Except String (List RelPath × Nat) :=
  match root with
  | none => Except.error "OSError"
  | some es => Except.ok (rpc_scan_entries lastScan "" es, scanTime)

example : scanEntries [] [] "" [Entry.dir "d" [Entry.file "f" 3], Entry.file "g" 4]
    = ["d/f", "g"] := by simp [scanEntries, joinPath]
example : scanEntries ["g"] [] "" [Entry.file "g" 4, Entry.symlinkFile "s" 1] = ["s"] := by
  simp [scanEntries, joinPath]
example : rpc_scan_entries (some 3) "" [Entry.file "old" 2, Entry.file "new" 9] = ["new"] := by
  simp [rpc_scan_entries, rpcFresh, joinPath]

/-- Outcome of one `copy_file_with_retries` call.  `attemptsMade` counts the
`shutil.copy2` calls issued; `sleeps` records the `time.sleep(delay)` calls
between consecutive attempts, in order. -/
structure CopyResult where
  success : Bool
  attemptsMade : Nat
  sleeps : List Nat
deriving DecidableEq

/-- Loop body of `copy_file_with_retries` (`monitor.py` lines 105-119).
`failsAt i` tells whether the `(i+1)`-th `shutil.copy2` call raises.
`remaining` is `retries - attempt`, the number of loop iterations the guard
`attempt < retries` still allows; on a failure with further attempts
available the code logs, sleeps `delay` seconds and retries, otherwise it
returns `False`. -/
def copyGo (failsAt : Nat → Bool) (delay : Nat) : Nat → Nat → CopyResult
  | 0, attempt => { success := false, attemptsMade := attempt, sleeps := [] }
  | remaining + 1, attempt =>
      if failsAt attempt then
        match remaining with
        | 0 => { success := false, attemptsMade := attempt + 1, sleeps := [] }
        | r + 1 =>
            let res := copyGo failsAt delay (r + 1) (attempt + 1)
            { success := res.success, attemptsMade := res.attemptsMade,
              sleeps := delay :: res.sleeps }
      else { success := true, attemptsMade := attempt + 1, sleeps := [] }

/-- Embedding of `copy_file_with_retries(file_source, file_dest, retries=3,
delay=5, logger=None)` (`monitor.py` lines 104-119), starting at
`attempt = 0`. -/
def copy_file_with_retries (failsAt : Nat → Bool) (retries delay : Nat) : CopyResult :=
  copyGo failsAt delay retries 0

/-- Default `retries` of `copy_file_with_retries` (`monitor.py` line 105). -/
def copyDefaultRetries : Nat := 3

/-- Default `delay` of `copy_file_with_retries` (`monitor.py` line 105).
`copy_file_batch` never overrides it, so every copy in the transfer path
sleeps 5 seconds between consecutive attempts. -/
def copyDefaultDelay : Nat := 5

example : copy_file_with_retries (fun i => decide (i < 2)) 3 5
    = { success := true, attemptsMade := 3, sleeps := [5, 5] } := by decide
example : copy_file_with_retries (fun _ => true) 3 5
    = { success := false, attemptsMade := 3, sleeps := [5, 5] } := by decide
example : copy_file_with_retries (fun _ => false) 3 5
    = { success := true, attemptsMade := 1, sleeps := [] } := by decide

/-- Outcome of one `copy_file_batch` call (`monitor.py` lines 122-138).
`results` holds the relative path of every successfully copied file, in
order (the source stores the corresponding pair `(source_dir/f, dest_dir/f)`,
which is determined by the relative path).  `failedLogged` counts the
per-file permanent failures, which the source only logs at error level.
`mkdirFor` lists the files whose destination parent directory creation
(`os.makedirs`) was invoked and `copyAttempted` the files for which
`copy_file_with_retries` was called at all. -/
structure BatchResult where
  results : List RelPath
  failedLogged : Nat
  mkdirFor : List RelPath
  copyAttempted : List RelPath
deriving DecidableEq

/-- Embedding of `copy_file_batch(files_batch, source_dir, dest_dir, logger,
verbose, retries=3)` (`monitor.py` lines 122-138).  Files are handled
sequentially; a file whose source path `os.path.islink` is a symbolic link is
skipped with `continue` before any destination directory creation or copy
attempt; otherwise the parent directory is created and
`copy_file_with_retries` runs with the default 5-second delay. -/
def copy_file_batch (isLink : RelPath → Bool) (failsAt : RelPath → Nat → Bool)
    (retries : Nat) : List RelPath → BatchResult
  | [] => { results := [], failedLogged := 0, mkdirFor := [], copyAttempted := [] }
  | f :: rest =>
      if isLink f then copy_file_batch isLink failsAt retries rest
      else
        let c := copy_file_with_retries (failsAt f) retries copyDefaultDelay
        let r := copy_file_batch isLink failsAt retries rest
        { results := (if c.success then [f] else []) ++ r.results,
          failedLogged := (if c.success then 0 else 1) + r.failedLogged,
          mkdirFor := f :: r.mkdirFor,
          copyAttempted := f :: r.copyAttempted }

/-- Batch partition of `sync_files` line 150:
`[files[i:i+batch_size] for i in range(0, total_files, batch_size)]`,
written with an explicit structural fuel (the list length) so that it
computes by kernel reduction.  Faithful for `batch_size ≥ 1`; the source
would raise `ValueError` for a zero step. -/
def chunksGo (n : Nat) : Nat → List RelPath → List (List RelPath)
  | 0, _ => []
  | _, [] => []
  | fuel + 1, x :: xs => (x :: xs.take (n - 1)) :: chunksGo n fuel (xs.drop (n - 1))

/-- Batches of size `n` covering `l` in order. -/
def chunks (n : Nat) (l : List RelPath) : List (List RelPath) :=
  chunksGo n l.length l

example : chunks 2 ["a", "b", "c", "d", "e"] = [["a", "b"], ["c", "d"], ["e"]] := by decide

/-- Sequential model of the worker pool of `sync_files` (`monitor.py` lines
152-170): each batch either raises as a whole (`batchRaises i`, the
batch-level unexpected error, incrementing `failed_files` and contributing no
successes) or contributes `len(results)` of its `copy_file_batch` call to
`synced_files_count`.  The executor joins every future, so the final counters
aggregate every batch; both counters are commutative sums, hence the
completion order of the threads does not affect them and a sequential fold is
a faithful model.  Returns `(synced_files_count, failed_files)`. -/
def syncBatches (isLink : RelPath → Bool) (failsAt : RelPath → Nat → Bool) (retries : Nat)
    (batchRaises : Nat → Bool) : Nat → List (List RelPath) → Nat × Nat
  | _, [] => (0, 0)
  | i, b :: bs =>
      let rest := syncBatches isLink failsAt retries batchRaises (i + 1) bs
      if batchRaises i then (rest.1, rest.2 + 1)
      else (rest.1 + (copy_file_batch isLink failsAt retries b).results.length, rest.2)

/-- Observable outcome of one `sync_files` call.  `loggedSynced` is the
number printed by line 177 as `Total files synced` (the source interpolates
`total_files`, not `synced_files_count`); `ret` is the Python return value —
the function body has no `return` statement, so it is always `None`,
modelled as `none`. -/
structure SyncOutcome where
  totalFiles : Nat
  syncedCount : Nat
  failedBatches : Nat
  loggedSynced : Nat
  ret : Option (Nat × Nat)
deriving DecidableEq

/-- Embedding of `sync_files(source_dir, dest_dir, files_to_sync, logger,
verbose, batch_size=100, retries=3, tracked_files=None)` (`monitor.py` lines
142-177).  The `tracked_files` parameter is accepted and never read by the
body.  The call blocks until the `ThreadPoolExecutor` context exits, i.e.
until every batch future has completed; afterwards line 177 logs
`total_files` as the synced total and the function falls off its end,
returning `None`. -/
def sync_files (isLink : RelPath → Bool) (failsAt : RelPath → Nat → Bool)
    (retries batchSize : Nat) (batchRaises : Nat → Bool) (files : List RelPath) :
    SyncOutcome :=
  let counts := syncBatches isLink failsAt retries batchRaises 0 (chunks batchSize files)
  { totalFiles := files.length, syncedCount := counts.1, failedBatches := counts.2,
    loggedSynced := files.length, ret := none }

example : sync_files (fun _ => false) (fun _ _ => false) 3 100 (fun _ => false) ["a", "b"]
    = { totalFiles := 2, syncedCount := 2, failedBatches := 0, loggedSynced := 2,
        ret := none } := by decide
example : sync_files (fun _ => false) (fun _ _ => true) 3 100 (fun _ => false) ["a"]
    = { totalFiles := 1, syncedCount := 0, failedBatches := 0, loggedSynced := 1,
        ret := none } := by decide

/-- Retry loop of `monitor_directory` (`monitor.py` lines 206-220):
`for attempt in range(1, retries + 1)` sleeps, rescans, and breaks as soon as
a scan yields new files.  `treeAt a` is the source tree observed by the scan
of attempt `a` (the tree may change between attempts while the loop sleeps).
Returns the final `new_files` list together with the number of scans
performed. -/
def monitorAttempts (tracked dest : List RelPath) (treeAt : Nat → List Entry) :
    Nat → Nat → List RelPath × Nat
  | _, 0 => ([], 0)
  | attempt, remaining + 1 =>
      let nf := scanEntries tracked dest "" (treeAt attempt)
      if nf = [] then
        let res := monitorAttempts tracked dest treeAt (attempt + 1) remaining
        (res.1, res.2 + 1)
      else (nf, 1)

/-- Embedding of `monitor_directory(source_dir, tracked_files, timeout,
retries, logger, source_files, dest_files)` (`monitor.py` lines 179-220):
attempts are numbered from 1; the pre-scan `time.sleep(timeout)` is a pure
delay and is not modelled. -/
def monitor_directory (tracked dest : List RelPath) (treeAt : Nat → List Entry)
    (retries : Nat) : List RelPath × Nat :=
  monitorAttempts tracked dest treeAt 1 retries

/-- State of `main`'s `while True` loop (`monitor.py` lines 284-294).
`tracked` and `dest` are `tracked_files` and `dest_files`; `cycle` counts the
completed `monitor_directory` calls; `diffs` records, in order, each
non-empty `new_files` list handed to `sync_files`; `emptyScans` counts the
scans that found nothing; `done` is set when the loop hits `break`. -/
structure LoopState where
  tracked : List RelPath
  dest : List RelPath
  cycle : Nat
  diffs : List (List RelPath)
  emptyScans : Nat
  done : Bool
deriving DecidableEq

/-- One iteration of `main`'s `while True` loop (`monitor.py` lines 286-294):
call `monitor_directory`; on an empty result `break`; otherwise call
`sync_files` on the new files and continue.  The loop body mutates neither
`tracked_files` nor `dest_files`: no code adds the attempted paths to either
set, and `sync_files` never reads the `tracked_files` argument it is passed,
so both sets are carried over unchanged.  `treeAt c a` is the source tree
seen by scan attempt `a` of cycle `c`. -/
def pollStep (retries : Nat) (treeAt : Nat → Nat → List Entry) (s : LoopState) :
    LoopState :=
  if s.done then s
  else
    let res := monitor_directory s.tracked s.dest (treeAt s.cycle) retries
    if res.1 = [] then
      { s with emptyScans := s.emptyScans + res.2, done := true, cycle := s.cycle + 1 }
    else
      let e := s.emptyScans + (res.2 - 1)
      { s with diffs := s.diffs ++ [res.1], emptyScans := e, cycle := s.cycle + 1 }

/-- Run `main`'s loop for at most `fuel` iterations (the loop itself has no
bound; `fuel` only truncates the observation window). -/
def pollRun (retries : Nat) (treeAt : Nat → Nat → List Entry) :
    Nat → LoopState → LoopState
  | 0, s => s
  | fuel + 1, s => pollRun retries treeAt fuel (pollStep retries treeAt s)

/-- Second level of the fresh-start enumeration (`monitor.py` lines 272-274):
inside a first-level directory only the direct file children are collected;
subdirectories of subdirectories are not visited. -/
def initialSub (dname : String) : List Entry → Except String (List RelPath)
  | [] => Except.ok []
  | Entry.errEntry _ :: _ => Except.error "OSError"
  | Entry.file n _ :: rest =>
      (initialSub dname rest).map fun l => joinPath dname n :: l
  | Entry.symlinkFile n _ :: rest =>
      (initialSub dname rest).map fun l => joinPath dname n :: l
  | Entry.dir _ _ :: rest => initialSub dname rest
  | Entry.symlinkDir _ _ :: rest => initialSub dname rest
  | Entry.symlinkBroken _ :: rest => initialSub dname rest

/-- Embedding of the fresh-start enumeration of `main` (`monitor.py` lines
265-274).  Despite the comment `Handle subdirectories recursively` on line
271, the code only descends two levels: top-level files and direct file
children of top-level directories.  There is no `try/except` around this
traversal, so an entry error propagates (modelled as `Except.error`). -/
def initial_enumeration : List Entry → Except String (List RelPath)
  | [] => Except.ok []
  | Entry.errEntry _ :: _ => Except.error "OSError"
  | Entry.file n _ :: rest => (initial_enumeration rest).map fun l => n :: l
  | Entry.symlinkFile n _ :: rest => (initial_enumeration rest).map fun l => n :: l
  | Entry.dir n es :: rest => do
      let sub ← initialSub n es
      let tail ← initial_enumeration rest
      Except.ok (sub ++ tail)
  | Entry.symlinkDir n es :: rest => do
      let sub ← initialSub n es
      let tail ← initial_enumeration rest
      Except.ok (sub ++ tail)
  | Entry.symlinkBroken _ :: rest => initial_enumeration rest

example : initial_enumeration
    [Entry.file "a" 1, Entry.dir "d" [Entry.file "b" 2, Entry.dir "e" [Entry.file "c" 3]]]
    = Except.ok ["a", "d/b"] := rfl

/-- Number of positional arguments passed to `compare_and_get_files_to_sync`
by the resume branch of `main` (`monitor.py` line 262:
`compare_and_get_files_to_sync(source_dir, dest_dir_project, logger)`). -/
def resumeCallArgCount : Nat := 3

/-- Number of positional parameters of `compare_and_get_files_to_sync`
(`monitor.py` line 13: `source_dir, tracked_files, dest_files, timeout,
retries, logger`). -/
def compareRequiredParams : Nat := 6

/-- Number of those parameters that carry a default value (none do). -/
def compareDefaultParams : Nat := 0

/-- Python positional-call legality: a call with `given` positional arguments
to a function of `required` positional parameters, the last `defaults` of
which have default values, raises `TypeError` unless
`required - defaults ≤ given ≤ required`. -/
def pythonCallOk (given required defaults : Nat) : Bool :=
  decide (required - defaults ≤ given) && decide (given ≤ required)

/-- The resume branch's call of `compare_and_get_files_to_sync`, reduced to
its call protocol: the function body never runs when the arity check fails. -/
def call_compare_and_get_files_to_sync (given : Nat) : Except String Unit :=
  if pythonCallOk given compareRequiredParams compareDefaultParams then Except.ok ()
  else Except.error "TypeError"

/-- Observable outcome of one `main` invocation: the Python result (an
uncaught exception is `Except.error`), the number of source-tree
enumeration/scan passes started, and the number of `sync_files`
invocations. -/
structure MainOutcome where
  result : Except String Unit
  scans : Nat
  syncs : Nat

/-- Embedding of `main(source_dir, dest_dir, timeout, retries, logger,
verbose, resume)` (`monitor.py` lines 247-301).  With `resume` set, line 262
calls `compare_and_get_files_to_sync` with 3 positional arguments; the
`try/except` of `main` catches only `KeyboardInterrupt`, so a `TypeError`
escapes before any scan or transfer happens (the `Except.ok` continuation of
that call is unreachable for the actual arity and is modelled as a stub).
Without `resume`, the two-level enumeration seeds `files_to_sync`,
`tracked_files = set(files_to_sync)` and `dest_files = set()`; a non-empty
initial list is synced once, then the poll loop runs. -/
def mainRun (resume : Bool) (tree : List Entry) (treeAt : Nat → Nat → List Entry)
    (retries fuel : Nat) : MainOutcome :=
  if resume then
    match call_compare_and_get_files_to_sync resumeCallArgCount with
    | Except.error e => { result := Except.error e, scans := 0, syncs := 0 }
    | Except.ok _ => { result := Except.ok (), scans := 1, syncs := 0 }
  else
    match initial_enumeration tree with
    | Except.error e => { result := Except.error e, scans := 1, syncs := 0 }
    | Except.ok files =>
        let s := pollRun retries treeAt fuel
          { tracked := files, dest := [], cycle := 0, diffs := [], emptyScans := 0,
            done := false }
        { result := Except.ok (), scans := 1 + s.cycle,
          syncs := (if files = [] then 0 else 1) + s.diffs.length }

/-- The local scanner is the raw traversal snapshot followed by the pure
membership filter of line 193: filtering commutes with the traversal. -/
theorem scan_eq_diff (tracked dest : List RelPath) : ∀ (pre : String) (es : List Entry),
    scanEntries tracked dest pre es = diffFiles (listPaths pre es) tracked dest
  | _, [] => by simp [scanEntries, listPaths, diffFiles]
  | _, Entry.errEntry _ :: _ => by simp [scanEntries, listPaths, diffFiles]
  | pre, Entry.file n _ :: rest => by
      have ih := scan_eq_diff tracked dest pre rest
      by_cases h : joinPath pre n ∉ tracked ∧ joinPath pre n ∉ dest <;>
        simp [scanEntries, listPaths, diffFiles, List.filter_cons, h, ih]
  | pre, Entry.symlinkFile n _ :: rest => by
      have ih := scan_eq_diff tracked dest pre rest
      by_cases h : joinPath pre n ∉ tracked ∧ joinPath pre n ∉ dest <;>
        simp [scanEntries, listPaths, diffFiles, List.filter_cons, h, ih]
  | pre, Entry.dir n es :: rest => by
      have ih1 := scan_eq_diff tracked dest (joinPath pre n) es
      have ih2 := scan_eq_diff tracked dest pre rest
      simp [scanEntries, listPaths, diffFiles, List.filter_append, ih1, ih2]
  | pre, Entry.symlinkDir n es :: rest => by
      have ih1 := scan_eq_diff tracked dest (joinPath pre n) es
      have ih2 := scan_eq_diff tracked dest pre rest
      simp [scanEntries, listPaths, diffFiles, List.filter_append, ih1, ih2]
  | pre, Entry.symlinkBroken _ :: rest => by
      have ih := scan_eq_diff tracked dest pre rest
      simp [scanEntries, listPaths, ih]
termination_by _ es => sizeOf es

/-- In the remote scanner a per-entry error skips exactly that entry. -/
theorem rpc_scan_err_skips_entry (lastScan : Option Nat) (pre n : String)
    (l2 : List Entry) : ∀ l1 : List Entry,
    rpc_scan_entries lastScan pre (l1 ++ Entry.errEntry n :: l2)
      = rpc_scan_entries lastScan pre l1 ++ rpc_scan_entries lastScan pre l2
  | [] => by simp [rpc_scan_entries]
  | e :: l1 => by
      have ih := rpc_scan_err_skips_entry lastScan pre n l2 l1
      cases e <;> simp [rpc_scan_entries, ih]

/-- In the local scanner an entry error drops the remainder of the current
directory listing. -/
theorem scan_err_truncates (tracked dest : List RelPath) (pre n : String)
    (l2 : List Entry) : ∀ l1 : List Entry,
    scanEntries tracked dest pre (l1 ++ Entry.errEntry n :: l2)
      = scanEntries tracked dest pre l1
  | [] => by simp [scanEntries]
  | e :: l1 => by
      have ih := scan_err_truncates tracked dest pre n l2 l1
      cases e <;> simp [scanEntries, ih]

/-- C3 (confirmed): the diff computed each cycle is pure set subtraction.
Membership in the scanner's output is exactly membership in the source
snapshot minus the tracked and destination views (`scanEntries` factors
through `diffFiles`, the filter of `monitor.py` line 193), and on the spec's
example the diff of source `{a, b, c}` against other view `{b}` — whether
`{b}` is the tracked set or the destination set — is exactly `{a, c}`. -/
theorem c3_diff_is_pure_set_subtraction :
    (∀ (src tracked dest : List RelPath) (p : RelPath),
        p ∈ diffFiles src tracked dest ↔ p ∈ src ∧ p ∉ tracked ∧ p ∉ dest) ∧
    (∀ (tracked dest : List RelPath) (pre : String) (es : List Entry),
        scanEntries tracked dest pre es = diffFiles (listPaths pre es) tracked dest) ∧
    diffFiles ["a", "b", "c"] ["b"] [] = ["a", "c"] ∧
    diffFiles ["a", "b", "c"] [] ["b"] = ["a", "c"] := by
  refine ⟨?_, fun tracked dest pre es => scan_eq_diff tracked dest pre es, by decide, by decide⟩
  intro src tracked dest p
  simp [diffFiles, List.mem_filter]

/-- C4 counterexample: a symlinked entry resolving to a regular file IS
included as a file by the local scan, and a symlinked entry resolving to a
directory IS followed by the remote scan — refuting the claim that symlinked
entries are neither followed as directories nor included as files. -/
theorem c4_counterexample_symlinks_scanned :
    scanEntries [] [] "" [Entry.symlinkFile "s" 0] = ["s"] ∧
    exposed_scan_directory none (some [Entry.symlinkDir "d" [Entry.file "f" 9]]) 100
      = Except.ok (["d/f"], 100) := by
  constructor
  · simp [scanEntries, joinPath]
  · simp [exposed_scan_directory, rpc_scan_entries, rpcFresh, joinPath]

/-- C4 amended: both scan variants treat a symbolic link exactly like its
target — a symlink to a regular file is scanned as that file, a symlink to a
directory is traversed as that directory — and only a broken symlink is
excluded, because `entry.is_file()` / `entry.is_dir()` follow symlinks.
(Symlink exclusion happens later, in the Transfer Executor, which skips
symlinked sources.) -/
theorem c4_amended_symlinks_follow_targets :
    (∀ (tracked dest : List RelPath) (pre n : String) (m : Nat) (rest : List Entry),
        scanEntries tracked dest pre (Entry.symlinkFile n m :: rest)
          = scanEntries tracked dest pre (Entry.file n m :: rest)) ∧
    (∀ (tracked dest : List RelPath) (pre n : String) (es rest : List Entry),
        scanEntries tracked dest pre (Entry.symlinkDir n es :: rest)
          = scanEntries tracked dest pre (Entry.dir n es :: rest)) ∧
    (∀ (tracked dest : List RelPath) (pre n : String) (rest : List Entry),
        scanEntries tracked dest pre (Entry.symlinkBroken n :: rest)
          = scanEntries tracked dest pre rest) ∧
    (∀ (lastScan : Option Nat) (pre n : String) (m : Nat) (rest : List Entry),
        rpc_scan_entries lastScan pre (Entry.symlinkFile n m :: rest)
          = rpc_scan_entries lastScan pre (Entry.file n m :: rest)) ∧
    (∀ (lastScan : Option Nat) (pre n : String) (es rest : List Entry),
        rpc_scan_entries lastScan pre (Entry.symlinkDir n es :: rest)
          = rpc_scan_entries lastScan pre (Entry.dir n es :: rest)) ∧
    (∀ (lastScan : Option Nat) (pre n : String) (rest : List Entry),
        rpc_scan_entries lastScan pre (Entry.symlinkBroken n :: rest)
          = rpc_scan_entries lastScan pre rest) := by
  refine ⟨?_, ?_, ?_, ?_, ?_, ?_⟩ <;> intros <;> simp [scanEntries, rpc_scan_entries]

/-- C9 counterexample: in the local scan an access error on one entry does
NOT exclude only that entry — the accessible qualifying file `b` listed after
the faulty entry `x` of the same directory is also dropped (the same scan
without the faulty entry returns `b`). -/
theorem c9_counterexample_directory_truncated :
    scanEntries [] [] "" [Entry.errEntry "x", Entry.file "b" 0] = [] ∧
    scanEntries [] [] "" [Entry.file "b" 0] = ["b"] := by
  constructor <;> simp [scanEntries, joinPath]

/-- C9 amended: a per-entry access error is never fatal to the overall scan,
but its blast radius differs between the two scan providers: the remote
scanner (per-entry `try/except OSError`) excludes exactly the failing entry
and continues, while the local scanner (one `try` around the whole directory
loop) drops the failing entry and every later entry of that same directory;
entries of other directories — including siblings of a faulty subdirectory —
are unaffected. -/
theorem c9_amended_error_scoping :
    (∀ (lastScan : Option Nat) (pre n : String) (l1 l2 : List Entry),
        rpc_scan_entries lastScan pre (l1 ++ Entry.errEntry n :: l2)
          = rpc_scan_entries lastScan pre l1 ++ rpc_scan_entries lastScan pre l2) ∧
    (∀ (tracked dest : List RelPath) (pre n : String) (l1 l2 : List Entry),
        scanEntries tracked dest pre (l1 ++ Entry.errEntry n :: l2)
          = scanEntries tracked dest pre l1) ∧
    (∀ (tracked dest : List RelPath) (pre d n : String) (l1 l2 rest : List Entry),
        scanEntries tracked dest pre (Entry.dir d (l1 ++ Entry.errEntry n :: l2) :: rest)
          = scanEntries tracked dest (joinPath pre d) l1
            ++ scanEntries tracked dest pre rest) := by
  refine ⟨fun lastScan pre n l1 l2 => rpc_scan_err_skips_entry lastScan pre n l2 l1,
    fun tracked dest pre n l1 l2 => scan_err_truncates tracked dest pre n l2 l1, ?_⟩
  intro tracked dest pre d n l1 l2 rest
  simp [scanEntries, scan_err_truncates tracked dest (joinPath pre d) n l2 l1]

/-- A batch behaves exactly as the same batch with every symlinked source
removed: `copy_file_batch` hits `continue` on a link before any effect. -/
theorem copy_file_batch_ignores_links (isLink : RelPath → Bool)
    (failsAt : RelPath → Nat → Bool) (retries : Nat) : ∀ batch : List RelPath,
    copy_file_batch isLink failsAt retries batch
      = copy_file_batch isLink failsAt retries (batch.filter fun g => ! isLink g)
  | [] => by simp [copy_file_batch]
  | f :: rest => by
      have ih := copy_file_batch_ignores_links isLink failsAt retries rest
      by_cases h : isLink f = true <;>
        simp [copy_file_batch, List.filter_cons, h, ih]

/-- Every path recorded by `copy_file_batch` — as a success, a directory
creation, or a copy attempt — is a non-link path of the batch. -/
theorem copy_file_batch_members (isLink : RelPath → Bool)
    (failsAt : RelPath → Nat → Bool) (retries : Nat) : ∀ (batch : List RelPath) (g : RelPath),
    (g ∈ (copy_file_batch isLink failsAt retries batch).results ∨
     g ∈ (copy_file_batch isLink failsAt retries batch).mkdirFor ∨
     g ∈ (copy_file_batch isLink failsAt retries batch).copyAttempted) →
    isLink g = false
  | [], g => by simp [copy_file_batch]
  | f :: rest, g => by
      have ih := copy_file_batch_members isLink failsAt retries rest g
      by_cases h : isLink f = true
      · simpa [copy_file_batch, h] using ih
      · intro hg
        rcases eq_or_ne g f with rfl | hne
        · simpa using h
        · apply ih
          rcases hg with hg | hg | hg
          · left
            by_cases hs : (copy_file_with_retries (failsAt f) retries copyDefaultDelay).success
              <;> simp [copy_file_batch, h, hs, hne] at hg <;> exact hg
          · right; left
            simp [copy_file_batch, h, hne] at hg
            exact hg
          · right; right
            simp [copy_file_batch, h, hne] at hg
            exact hg

/-- C5 (confirmed): a symlinked source path in a batch is skipped entirely —
the batch outcome is the outcome of the batch with all links filtered out,
and the link appears in no success list, no destination directory creation
and no copy attempt (hence also in neither the success nor the failure
counts, which are functions of the link-free batch). -/
theorem c5_symlink_skipped_entirely (isLink : RelPath → Bool)
    (failsAt : RelPath → Nat → Bool) (retries : Nat) (batch : List RelPath) (f : RelPath)
    (hl : isLink f = true) :
    copy_file_batch isLink failsAt retries batch
      = copy_file_batch isLink failsAt retries (batch.filter fun g => ! isLink g) ∧
    f ∉ (copy_file_batch isLink failsAt retries batch).results ∧
    f ∉ (copy_file_batch isLink failsAt retries batch).mkdirFor ∧
    f ∉ (copy_file_batch isLink failsAt retries batch).copyAttempted := by
  refine ⟨copy_file_batch_ignores_links isLink failsAt retries batch, ?_, ?_, ?_⟩ <;>
    intro hmem
  · have := copy_file_batch_members isLink failsAt retries batch f (Or.inl hmem)
    simp [hl] at this
  · have := copy_file_batch_members isLink failsAt retries batch f (Or.inr (Or.inl hmem))
    simp [hl] at this
  · have := copy_file_batch_members isLink failsAt retries batch f (Or.inr (Or.inr hmem))
    simp [hl] at this

/-- Witness for C5 at a concrete batch: `lnk` is a symlink in the batch
`[lnk, b]` and is absent from the successes of the batch run. -/
theorem c5_symlink_skipped_entirely_witness :
    ((fun p : RelPath => p == "lnk") "lnk" = true) ∧
    "lnk" ∉ (copy_file_batch (fun p => p == "lnk") (fun _ _ => false) 3 ["lnk", "b"]).results :=
  ⟨by decide,
    (c5_symlink_skipped_entirely (fun p => p == "lnk") (fun _ _ => false) 3 ["lnk", "b"]
      "lnk" (by decide)).2.1⟩

/-- The retry loop makes at most `attempt + remaining` copy attempts. -/
theorem copyGo_attempts_le (failsAt : Nat → Bool) (delay : Nat) :
    ∀ (remaining attempt : Nat),
      (copyGo failsAt delay remaining attempt).attemptsMade ≤ attempt + remaining
  | 0, attempt => by simp [copyGo]
  | 1, attempt => by
      by_cases h : failsAt attempt = true
      · simp [copyGo, h]
      · simp [copyGo, h]
  | r + 2, attempt => by
      have ih := copyGo_attempts_le failsAt delay (r + 1) (attempt + 1)
      by_cases h : failsAt attempt = true
      · simp only [copyGo, h, if_pos]
        omega
      · simp [copyGo, h]

/-- Every recorded inter-attempt sleep is the configured `delay`. -/
theorem copyGo_sleeps_delay (failsAt : Nat → Bool) (delay : Nat) :
    ∀ (remaining attempt : Nat) (s : Nat),
      s ∈ (copyGo failsAt delay remaining attempt).sleeps → s = delay
  | 0, attempt, s => by simp [copyGo]
  | 1, attempt, s => by
      by_cases h : failsAt attempt = true <;> simp [copyGo, h]
  | r + 2, attempt, s => by
      have ih := copyGo_sleeps_delay failsAt delay (r + 1) (attempt + 1) s
      by_cases h : failsAt attempt = true <;> simp [copyGo, h]
      intro hs
      rcases hs with rfl | hs
      · rfl
      · exact ih hs

/-- If the first `k` attempts from `attempt` fail and the next succeeds,
the loop stops with success after exactly `k + 1` copy calls and `k`
sleeps. -/
theorem copyGo_succeeds_after (failsAt : Nat → Bool) (delay : Nat) :
    ∀ (k remaining attempt : Nat), k < remaining →
      (∀ i, i < k → failsAt (attempt + i) = true) → failsAt (attempt + k) = false →
      copyGo failsAt delay remaining attempt
        = { success := true, attemptsMade := attempt + k + 1,
            sleeps := List.replicate k delay }
  | 0, remaining, attempt, hk, _, hsucc => by
      obtain ⟨r, rfl⟩ : ∃ r, remaining = r + 1 := ⟨remaining - 1, by omega⟩
      have h0 : failsAt attempt = false := by simpa using hsucc
      rw [copyGo.eq_def]
      simp [h0]
  | k + 1, remaining, attempt, hk, hfail, hsucc => by
      obtain ⟨r, rfl⟩ : ∃ r, remaining = r + 2 := ⟨remaining - 2, by omega⟩
      have h0 : failsAt attempt = true := by simpa using hfail 0 (by omega)
      have ih := copyGo_succeeds_after failsAt delay k (r + 1) (attempt + 1)
        (by omega)
        (fun i hi => by
          have := hfail (i + 1) (by omega)
          simpa [Nat.add_assoc, Nat.add_comm 1 i] using this)
        (by
          have : attempt + 1 + k = attempt + (k + 1) := by omega
          rw [this]; exact hsucc)
      rw [copyGo.eq_def]
      simp only [h0, if_pos, ih, List.replicate_succ, CopyResult.mk.injEq, true_and]
      exact ⟨by omega, trivial⟩

/-- If every attempt up to the budget fails, the loop reports permanent
failure after exactly `remaining` copy calls and `remaining - 1` sleeps. -/
theorem copyGo_all_fail (failsAt : Nat → Bool) (delay : Nat) :
    ∀ (remaining attempt : Nat),
      (∀ i, i < remaining → failsAt (attempt + i) = true) →
      copyGo failsAt delay remaining attempt
        = { success := false, attemptsMade := attempt + remaining,
            sleeps := List.replicate (remaining - 1) delay }
  | 0, attempt, _ => by simp [copyGo]
  | 1, attempt, hfail => by
      have h0 : failsAt attempt = true := by simpa using hfail 0 (by omega)
      simp [copyGo, h0]
  | r + 2, attempt, hfail => by
      have h0 : failsAt attempt = true := by simpa using hfail 0 (by omega)
      have ih := copyGo_all_fail failsAt delay (r + 1) (attempt + 1)
        (fun i hi => by
          have := hfail (i + 1) (by omega)
          simpa [Nat.add_assoc, Nat.add_comm 1 i] using this)
      rw [copyGo.eq_def]
      simp only [h0, if_pos, ih, List.replicate_succ, CopyResult.mk.injEq,
        Nat.add_sub_cancel, true_and]
      refine ⟨by omega, rfl⟩

/-- C6 (confirmed): `copy_file_with_retries` makes at most `retries` copy
attempts (the source defaults are `retries = 3`, `delay = 5`), sleeps the
fixed `delay` between consecutive attempts, reports success with attempt
count `k + 1` when the copy fails `k < retries` times and then succeeds, and
reports a permanent failure after `retries` failing attempts. -/
theorem c6_retry_bound (failsAt : Nat → Bool) (retries delay k : Nat) :
    (copy_file_with_retries failsAt retries delay).attemptsMade ≤ retries ∧
    (∀ s ∈ (copy_file_with_retries failsAt retries delay).sleeps, s = delay) ∧
    copyDefaultRetries = 3 ∧ copyDefaultDelay = 5 ∧
    (k < retries → (∀ i, i < k → failsAt i = true) → failsAt k = false →
      copy_file_with_retries failsAt retries delay
        = { success := true, attemptsMade := k + 1, sleeps := List.replicate k delay }) ∧
    ((∀ i, i < retries → failsAt i = true) →
      copy_file_with_retries failsAt retries delay
        = { success := false, attemptsMade := retries,
            sleeps := List.replicate (retries - 1) delay }) := by
  refine ⟨?_, ?_, rfl, rfl, ?_, ?_⟩
  · simpa using copyGo_attempts_le failsAt delay retries 0
  · exact fun s hs => copyGo_sleeps_delay failsAt delay retries 0 s hs
  · intro hk hfail hsucc
    have := copyGo_succeeds_after failsAt delay k retries 0 hk
      (fun i hi => by simpa using hfail i hi) (by simpa using hsucc)
    simpa [copy_file_with_retries] using this
  · intro hfail
    have := copyGo_all_fail failsAt delay retries 0
      (fun i hi => by simpa using hfail i hi)
    simpa [copy_file_with_retries] using this

/-- The batches of `sync_files` line 150 cover the input exactly: joining
them gives back the file list (every file is dispatched in exactly one
batch). -/
theorem chunksGo_join (n : Nat) : ∀ (fuel : Nat) (l : List RelPath), l.length ≤ fuel →
    (chunksGo n fuel l).flatten = l
  | fuel, [], _ => by cases fuel <;> simp [chunksGo]
  | 0, x :: xs, h => by simp at h
  | fuel + 1, x :: xs, h => by
      have ih := chunksGo_join n fuel (xs.drop (n - 1)) (by simp at h ⊢; omega)
      simp [chunksGo, ih]

/-- The worker-pool fold aggregates every batch: the success counter is the
sum of the per-batch success counts of the non-raising batches and the
failure counter is the number of raising batches. -/
theorem syncBatches_spec (isLink : RelPath → Bool) (failsAt : RelPath → Nat → Bool)
    (retries : Nat) (batchRaises : Nat → Bool) : ∀ (bs : List (List RelPath)) (i : Nat),
    syncBatches isLink failsAt retries batchRaises i bs
      = (((List.enumFrom i bs).map fun p =>
            if batchRaises p.1 then 0
            else (copy_file_batch isLink failsAt retries p.2).results.length).sum,
         (List.enumFrom i bs).countP fun p => batchRaises p.1)
  | [], i => by simp [syncBatches]
  | b :: bs, i => by
      have ih := syncBatches_spec isLink failsAt retries batchRaises bs (i + 1)
      by_cases h : batchRaises i = true
      · simp [syncBatches, ih, List.enumFrom, List.countP_cons, h]
      · simp [syncBatches, ih, List.enumFrom, List.countP_cons, h, Nat.add_comm]

/-- C7 counterexample: `sync_files` does not return the aggregate per-file
counts.  On a one-file batch whose copy permanently fails, the Python
function returns `None` (its body has no return statement), its internal
success counter is 0, and its `failed_files` counter — which counts raising
batches, not files — is also 0 even though the file's permanent failure was
logged inside `copy_file_batch`. -/
theorem c7_counterexample_returns_none :
    (sync_files (fun _ => false) (fun _ _ => true) 3 100 (fun _ => false) ["a"]).ret = none ∧
    (sync_files (fun _ => false) (fun _ _ => true) 3 100 (fun _ => false) ["a"]).syncedCount
      = 0 ∧
    (sync_files (fun _ => false) (fun _ _ => true) 3 100 (fun _ => false) ["a"]).failedBatches
      = 0 ∧
    (copy_file_batch (fun _ => false) (fun _ _ => true) 3 ["a"]).failedLogged = 1 := by
  exact ⟨rfl, by decide, by decide, by decide⟩

/-- C7 amended: `sync_files` is a synchronous barrier — its outcome is a
function of every dispatched batch (each input file lying in exactly one
batch), its internal counters aggregate per-file successes and per-batch
failures — but the aggregate is only logged (with `total_files` printed as
the synced total), not returned: the call returns `None`. -/
theorem c7_amended_barrier_and_counters (isLink : RelPath → Bool)
    (failsAt : RelPath → Nat → Bool) (retries batchSize : Nat) (batchRaises : Nat → Bool)
    (files : List RelPath) (_hbs : 1 ≤ batchSize) :
    (sync_files isLink failsAt retries batchSize batchRaises files).ret = none ∧
    (chunks batchSize files).flatten = files ∧
    (sync_files isLink failsAt retries batchSize batchRaises files).syncedCount
      = (((chunks batchSize files).enumFrom 0).map fun p =>
          if batchRaises p.1 then 0
          else (copy_file_batch isLink failsAt retries p.2).results.length).sum ∧
    (sync_files isLink failsAt retries batchSize batchRaises files).failedBatches
      = ((chunks batchSize files).enumFrom 0).countP (fun p => batchRaises p.1) ∧
    (sync_files isLink failsAt retries batchSize batchRaises files).loggedSynced
      = files.length ∧
    (sync_files isLink failsAt retries batchSize batchRaises files).totalFiles
      = files.length := by
  have hspec := syncBatches_spec isLink failsAt retries batchRaises (chunks batchSize files) 0
  refine ⟨rfl, chunksGo_join batchSize files.length files (le_refl _), ?_, ?_, rfl, rfl⟩
  · simp [sync_files, hspec]
  · simp [sync_files, hspec]

/-- Witness for C7 amended, at batch size 2 over three files with the second
batch raising. -/
theorem c7_amended_barrier_and_counters_witness :
    (1 ≤ 2) ∧
    (sync_files (fun _ => false) (fun _ _ => false) 3 2 (fun i => decide (i = 1))
      ["a", "b", "c"]).ret = none ∧
    (chunks 2 ["a", "b", "c"]).flatten = ["a", "b", "c"] :=
  ⟨by decide,
    (c7_amended_barrier_and_counters (fun _ => false) (fun _ _ => false) 3 2
      (fun i => decide (i = 1)) ["a", "b", "c"] (by decide)).1,
    (c7_amended_barrier_and_counters (fun _ => false) (fun _ _ => false) 3 2
      (fun i => decide (i = 1)) ["a", "b", "c"] (by decide)).2.1⟩

/-- Witness for C6: with `retries = 3`, `delay = 5` and a copy that fails
exactly on the first two attempts, the call succeeds with attempt count 3
after two 5-second sleeps. -/
theorem c6_retry_bound_witness :
    (2 < 3 ∧ (∀ i, i < 2 → (fun j => decide (j < 2)) i = true) ∧
      (fun j => decide (j < 2)) 2 = false) ∧
    copy_file_with_retries (fun j => decide (j < 2)) 3 5
      = { success := true, attemptsMade := 3, sleeps := List.replicate 2 5 } :=
  ⟨⟨by decide, by decide, by decide⟩,
    (c6_retry_bound (fun j => decide (j < 2)) 3 5 2).2.2.2.2.1
      (by decide) (by decide) (by decide)⟩

/-- Constant source tree holding one top-level regular file `a` — the tree
observed by every scan of every cycle in the counterexample runs (a file that
appeared after the initial pass and then never changed). -/
def treeA : List Entry := [Entry.file "a" 7]

/-- State of `main`'s loop right after a fresh start whose initial two-level
enumeration found nothing: `tracked_files = set()` and `dest_files = set()`. -/
def startA : LoopState :=
  { tracked := [], dest := [], cycle := 0, diffs := [], emptyScans := 0, done := false }

/-- C1 refutation run: cycle 1 hands `a` to `sync_files`, yet after the cycle
`tracked_files` still does not contain `a` (the loop and `sync_files` never
add attempted paths to it), and the very next `monitor_directory` call
re-queues `a`. -/
theorem c1_attempted_path_never_tracked :
    (pollRun 3 (fun _ _ => treeA) 1 startA).diffs = [["a"]] ∧
    (pollRun 3 (fun _ _ => treeA) 1 startA).tracked = [] ∧
    (pollRun 3 (fun _ _ => treeA) 1 startA).dest = [] ∧
    "a" ∈ (monitor_directory (pollRun 3 (fun _ _ => treeA) 1 startA).tracked
        (pollRun 3 (fun _ _ => treeA) 1 startA).dest (fun _ => treeA) 3).1 := by
  have hmon : monitor_directory [] [] (fun _ => treeA) 3 = (["a"], 1) := by
    simp [monitor_directory, monitorAttempts, scanEntries, joinPath, treeA]
  refine ⟨?_, ?_, ?_, ?_⟩ <;>
    simp [pollRun, pollStep, hmon, startA]

/-- C2 refutation run: with the source tree unchanged between cycle 1 and
cycle 2, cycle 2 recomputes the same non-empty diff `[a]` and hands it to
`sync_files` again, which copies 1 file — not 0. -/
theorem c2_second_cycle_retransfers :
    (pollRun 3 (fun _ _ => treeA) 2 startA).diffs = [["a"], ["a"]] ∧
    sync_files (fun _ => false) (fun _ _ => false) 3 100 (fun _ => false) ["a"]
      = { totalFiles := 1, syncedCount := 1, failedBatches := 0, loggedSynced := 1,
          ret := none } := by
  have hmon : monitor_directory [] [] (fun _ => treeA) 3 = (["a"], 1) := by
    simp [monitor_directory, monitorAttempts, scanEntries, joinPath, treeA]
  constructor
  · simp [pollRun, pollStep, hmon, startA]
  · decide

/-- Source tree with a single regular file at depth three, `d1/d2/f`,
constant over the whole run. -/
def deepTree : List Entry := [Entry.dir "d1" [Entry.dir "d2" [Entry.file "f" 11]]]

/-- On `deepTree` with empty tracked and destination sets, every loop
iteration finds the same non-empty diff and the loop never breaks. -/
theorem pollRun_deepTree : ∀ (fuel : Nat) (s : LoopState), s.done = false →
    s.tracked = [] → s.dest = [] →
    pollRun 3 (fun _ _ => deepTree) fuel s
      = { tracked := s.tracked, dest := s.dest, cycle := s.cycle + fuel,
          diffs := s.diffs ++ List.replicate fuel ["d1/d2/f"],
          emptyScans := s.emptyScans, done := false }
  | 0, s, hd, _, _ => by
      cases s with
      | mk t d c df e dn => simp only [pollRun]; simp_all
  | fuel + 1, s, hd, ht, hds => by
      have hmon : monitor_directory [] [] (fun _ => deepTree) 3 = (["d1/d2/f"], 1) := by
        simp [monitor_directory, monitorAttempts, scanEntries, joinPath, deepTree]
      have hstep : pollStep 3 (fun _ _ => deepTree) s
          = { tracked := s.tracked, dest := s.dest, cycle := s.cycle + 1,
              diffs := s.diffs ++ [["d1/d2/f"]], emptyScans := s.emptyScans,
              done := false } := by
        simp [pollStep, hd, ht, hds, hmon]
      have ih := pollRun_deepTree fuel
        { tracked := s.tracked, dest := s.dest, cycle := s.cycle + 1,
          diffs := s.diffs ++ [["d1/d2/f"]], emptyScans := s.emptyScans, done := false }
        rfl ht hds
      simp only [pollRun, hstep, ih, List.replicate_succ, LoopState.mk.injEq,
        List.append_assoc, List.singleton_append, true_and, and_true]
      omega

/-- C8 refutation: on a never-changing source tree whose only file sits at
depth three, the fresh-start enumeration finds nothing (it only descends two
levels), every poll cycle finds the same non-empty diff `[d1/d2/f]`, zero
empty scans ever happen, and the loop never transitions to Done — for any
number of cycles. -/
theorem c8_deep_tree_never_terminates :
    initial_enumeration deepTree = Except.ok [] ∧
    ∀ fuel : Nat,
      (pollRun 3 (fun _ _ => deepTree) fuel startA).done = false ∧
      (pollRun 3 (fun _ _ => deepTree) fuel startA).emptyScans = 0 ∧
      (pollRun 3 (fun _ _ => deepTree) fuel startA).diffs
        = List.replicate fuel ["d1/d2/f"] := by
  refine ⟨rfl, fun fuel => ?_⟩
  have h := pollRun_deepTree fuel startA rfl rfl rfl
  rw [h]
  simp [startA]

/-- C10 (confirmed): the resume branch calls
`compare_and_get_files_to_sync` with 3 positional arguments while the
function declares 6 parameters without defaults, so the call is illegal and
raises `TypeError`; a resuming run of `main` therefore performs no scan and
no transfer, for every source tree and configuration. -/
theorem c10_resume_always_type_error :
    resumeCallArgCount = 3 ∧ compareRequiredParams = 6 ∧ compareDefaultParams = 0 ∧
    pythonCallOk resumeCallArgCount compareRequiredParams compareDefaultParams = false ∧
    ∀ (tree : List Entry) (treeAt : Nat → Nat → List Entry) (retries fuel : Nat),
      mainRun true tree treeAt retries fuel
        = { result := Except.error "TypeError", scans := 0, syncs := 0 } := by
  exact ⟨rfl, rfl, rfl, by decide, fun tree treeAt retries fuel => rfl⟩
